import Mathlib

/-!
Shallow embedding of the Shoekart backend (src/backend/server.js).

Document-store state is modelled by Lean lists of records; MongoDB object
ids are modelled by `Nat`. Each Express route handler becomes a pure Lean
function from the relevant store state (and, where a claim is about
store failure, an `Except Unit` wrapper standing for the outcome of the
awaited query) to the pair of HTTP response and updated store state.
JavaScript `undefined`/absent values are `Option`; JS truthiness on the
relevant values (empty string, zero) is made explicit at each use site.
-/

set_option autoImplicit false

namespace Shoekart

/-- MongoDB ObjectId, modelled as a natural number. -/
abbrev ObjId := Nat

/-- A Product document as declared by `productSchema` (server.js:80-94):
name, price, category, description, image, size, brand, rating (nullable),
color, plus the implicit `_id`.  `createdAt` is carried as a `Nat` tick. -/
structure Product where
  pid : ObjId
  name : String
  price : Int
  category : String
  description : String
  image : String
  size : String
  brand : String
  rating : Option Int
  color : String
  createdAt : Nat
deriving DecidableEq, Repr

/-- The Catalog Store: the collection of Product documents. -/
abbrev Catalog := List Product

/-- `Product.findById` / resolving a stored product reference: the first
document whose `_id` matches, if any. -/
def resolve (catalog : Catalog) (pid : ObjId) : Option Product :=
  catalog.find? (fun p => p.pid == pid)

/-- A cart entry as embedded in `UserSchema.cart` (server.js:72-77):
a product reference plus a quantity. -/
structure CartEntry where
  productId : ObjId
  quantity : Int
deriving DecidableEq, Repr

/-- A User document as declared by `UserSchema` (server.js:66-78).
Note: the schema declares exactly name, email, password, role, wishlist
and cart; in particular it declares NO `isFirstLogin` path. -/
structure User where
  uid : ObjId
  name : String
  email : String
  password : String
  role : String
  wishlist : List ObjId
  cart : List CartEntry
deriving DecidableEq, Repr

/-- The Identity Store: the collection of User documents. -/
abbrev Users := List User

/-- `User.findOne with email` : first user document with the given email. -/
def findUser (users : Users) (email : String) : Option User :=
  users.find? (fun u => u.email == email)

/-- `updateOne` / `document.save()` on the first user matching an email:
replaces that one document, leaves the rest of the collection unchanged. -/
def updateFirstUser : Users → String → (User → User) → Users
  | [], _, _ => []
  | u :: rest, email, f =>
      if u.email == email then f u :: rest
      else u :: updateFirstUser rest email f

/- ------------------------------------------------------------------
   GET /products (server.js:372-396): catalog listing with filters.
   ------------------------------------------------------------------ -/

/-- The query parameters of `GET /products`.  String parameters are the
raw query strings (`none` when the key is absent); the numeric parameters
`rating`, `priceMin`, `priceMax` are carried already parsed (`none` when
the key is absent or its string is falsy, since `Number` is applied only
inside the truthiness guard). -/
structure ProductQuery where
  category : Option String
  size : Option String
  brand : Option String
  color : Option String
  rating : Option Int
  priceMin : Option Int
  priceMax : Option Int
deriving DecidableEq, Repr

/-- JS truthiness on an optional string: `if (s) ...` treats the empty
string like an absent value (server.js:378-383 guard each filter field). -/
def truthyStr : Option String → Option String
  | some "" => none
  | o => o

/-- The Mongo filter document built by the handler, with empty-string
query values already dropped by the truthiness guards. -/
structure ProductFilter where
  category : Option String
  size : Option String
  brand : Option String
  color : Option String
  rating : Option Int
  priceMin : Option Int
  priceMax : Option Int
deriving DecidableEq, Repr

/-- server.js:376-388: each query field is copied into the filter under a
JS truthiness guard (`if (category) filter.category = category`, etc.). -/
def buildFilter (q : ProductQuery) : ProductFilter where
  category := truthyStr q.category
  size := truthyStr q.size
  brand := truthyStr q.brand
  color := truthyStr q.color
  rating := q.rating
  priceMin := q.priceMin
  priceMax := q.priceMax

/-- An absent filter key constrains nothing; a present one demands string
equality (Mongo equality match on category/size/brand). -/
def strEqFilter (o : Option String) (x : String) : Bool :=
  match o with | none => true | some c => x == c

/-- The color constraint: `$regex` anchored both ends with the `i` flag
(server.js:381-383), which for a literal color string is case-insensitive
equality. -/
def colorEqFilter (o : Option String) (x : String) : Bool :=
  match o with | none => true | some c => x.toLower == c.toLower

/-- The rating constraint: `$gte` on the rating field; in MongoDB a
numeric `$gte` never matches a document whose rating is `null`. -/
def ratingGeFilter (o : Option Int) (pr : Option Int) : Bool :=
  match o with
  | none => true
  | some r => match pr with | none => false | some v => r ≤ v

/-- The `price.$gte` constraint. -/
def priceMinFilter (o : Option Int) (x : Int) : Bool :=
  match o with | none => true | some m => m ≤ x

/-- The `price.$lte` constraint. -/
def priceMaxFilter (o : Option Int) (x : Int) : Bool :=
  match o with | none => true | some m => x ≤ m

/-- Whether one product matches the Mongo filter document: the
conjunction of the per-field constraints, each vacuous when its key is
absent from the filter. -/
def matchesFilter (f : ProductFilter) (p : Product) : Bool :=
  strEqFilter f.category p.category &&
  strEqFilter f.size p.size &&
  strEqFilter f.brand p.brand &&
  colorEqFilter f.color p.color &&
  ratingGeFilter f.rating p.rating &&
  priceMinFilter f.priceMin p.price &&
  priceMaxFilter f.priceMax p.price

/-- `Product.find(filter)` : every catalog document matching the filter. -/
def findProducts (catalog : Catalog) (f : ProductFilter) : List Product :=
  catalog.filter (matchesFilter f)

/-- The whole `GET /products` handler body on the success path. -/
def getProducts (catalog : Catalog) (q : ProductQuery) : List Product :=
  findProducts catalog (buildFilter q)

/- ------------------------------------------------------------------
   GET /cart/:email (server.js:283-312): the safe cart read.
   ------------------------------------------------------------------ -/

/-- One item of the denormalized cart response: `_id`, `name`, `price`
from the populated product, `quantity` from the stored entry
(server.js:299-304). -/
structure CartItemView where
  pid : ObjId
  name : String
  price : Int
  quantity : Int
deriving DecidableEq, Repr

/-- `populate("cart.productId")` : each entry's stored reference is
replaced by the referenced product document, or null (`none`) when the
reference no longer resolves. -/
def populateCart (catalog : Catalog) (cart : List CartEntry) :
    List (Option Product × Int) :=
  cart.map (fun e => (resolve catalog e.productId, e.quantity))

/-- server.js:297-304: drop entries whose populated product is null, then
shape each survivor into the denormalized view. -/
def cleanedCart (catalog : Catalog) (cart : List CartEntry) : List CartItemView :=
  ((populateCart catalog cart).filter (fun x => x.1.isSome)).filterMap
    (fun x => x.1.map (fun p => ⟨p.pid, p.name, p.price, x.2⟩))

/-- The `GET /cart/:email` handler.  The `Except Unit` argument is the
outcome of the awaited `User.findOne` query: `Except.error` is a store
failure which lands in the catch block.  The result is the HTTP status
and the JSON array sent.  server.js:291-294 returns `(200, [])` for a
missing user (or non-array cart); server.js:307-311 returns `(200, [])`
from the catch block; the success path is `(200, cleanedCart)`. -/
def getCartHandler (catalog : Catalog) (lookup : Except Unit (Option User)) :
    Nat × List CartItemView :=
  match lookup with
  | .error _ => (200, [])
  | .ok none => (200, [])
  | .ok (some u) => (200, cleanedCart catalog u.cart)

/- ------------------------------------------------------------------
   POST /cart (server.js:314-333): addToCart.
   ------------------------------------------------------------------ -/

/-- JS `quantity || 1` (server.js:322,324): `1` when `quantity` is absent
(`undefined`) or zero (both falsy), otherwise the given number. -/
def jsQtyOrOne : Option Int → Int
  | none => 1
  | some v => if v = 0 then 1 else v

/-- The cart mutation of `POST /cart` (server.js:320-325): `find` the
first entry whose reference equals the product id and increment its
quantity by `quantity || 1`; if no entry matches, push a new entry with
quantity `quantity || 1` at the end. -/
def addToCart (cart : List CartEntry) (pid : ObjId) (q : Option Int) :
    List CartEntry :=
  match cart with
  | [] => [⟨pid, jsQtyOrOne q⟩]
  | e :: rest =>
      if e.productId = pid then ⟨pid, e.quantity + jsQtyOrOne q⟩ :: rest
      else e :: addToCart rest pid q

/-- The `POST /cart` handler: 404 `{success:false}` when the user is not
found, else mutate the found user's cart, save, and answer
`{success:true}`.  Result: (status, success flag, updated store). -/
def postCartHandler (users : Users) (email : String) (pid : ObjId)
    (q : Option Int) : (Nat × Bool) × Users :=
  match findUser users email with
  | none => ((404, false), users)
  | some _ =>
      ((200, true),
       updateFirstUser users email
         (fun u => { u with cart := addToCart u.cart pid q }))

/- ------------------------------------------------------------------
   DELETE /cart/remove (server.js:335-367).
   ------------------------------------------------------------------ -/

/-- The filter of server.js:346-348 on the populated cart: keep an entry
iff its populated product is non-null AND that product's `_id` differs
from the product id being removed.  For a resolvable entry the populated
`_id` equals the stored reference, so on the stored (depopulated) cart
this keeps exactly the entries that resolve and do not name `pid`. -/
def cartRemoveFilter (catalog : Catalog) (pid : ObjId)
    (cart : List CartEntry) : List CartEntry :=
  cart.filter (fun e => (resolve catalog e.productId).isSome && e.productId != pid)

/-- `user.cart = newCart` followed by `save()`: the found user document
with its cart replaced. -/
def cartSet (c : List CartEntry) (u : User) : User := { u with cart := c }

/-- The `DELETE /cart/remove` handler: missing user answers `(200, [])`
(server.js:341-343); otherwise the filtered cart is saved back onto the
user document (server.js:346-350) and the cleaned view of the new cart is
returned with status 200 (server.js:353-362). -/
def cartRemoveHandler (catalog : Catalog) (users : Users) (email : String)
    (pid : ObjId) : (Nat × List CartItemView) × Users :=
  match findUser users email with
  | none => ((200, []), users)
  | some u =>
      ((200, cleanedCart catalog (cartRemoveFilter catalog pid u.cart)),
       updateFirstUser users email (cartSet (cartRemoveFilter catalog pid u.cart)))

/- ------------------------------------------------------------------
   Wishlist routes (server.js:238-279).
   ------------------------------------------------------------------ -/

/-- Response body of `GET /wishlist/:email`: either the populated
wishlist array (200), the user-not-found object (404), or the catch
block's `{success:false}` object (500). -/
inductive WishGetBody where
  | arr (products : List Product)
  | notFoundObj
  | faultObj
deriving DecidableEq, Repr

/-- The `GET /wishlist/:email` handler (server.js:256-265).  The
`Except Unit` argument is the outcome of the awaited `User.findOne`
query; its failure lands in the catch block which answers
`(500, {success:false})` — it does NOT degrade to an empty array.
`populate("wishlist")` on an array path drops unresolved references, so
the success body holds exactly the resolvable products. -/
def getWishlistHandler (catalog : Catalog) (lookup : Except Unit (Option User)) :
    Nat × WishGetBody :=
  match lookup with
  | .error _ => (500, .faultObj)
  | .ok none => (404, .notFoundObj)
  | .ok (some u) => (200, .arr (u.wishlist.filterMap (resolve catalog)))

/-- Response body of `DELETE /wishlist/remove` (server.js:267-279): a
success flag and a message — the handler never sends the wishlist
itself. -/
structure WishRemoveBody where
  success : Bool
  message : String
deriving DecidableEq, Repr

/-- `User.updateOne({email}, {$pull: {wishlist: productId}})`: the
matched user document with every occurrence of the product id removed
from its wishlist. -/
def wishPull (pid : ObjId) (u : User) : User :=
  { u with wishlist := u.wishlist.filter (fun x => x != pid) }

/-- The `DELETE /wishlist/remove` handler: 404 for a missing user,
otherwise `$pull` the product id from the wishlist (removing every
occurrence) and answer `{success:true, message}` with status 200. -/
def wishlistRemoveHandler (users : Users) (email : String) (pid : ObjId) :
    (Nat × WishRemoveBody) × Users :=
  match findUser users email with
  | none => ((404, ⟨false, "User not found"⟩), users)
  | some _ =>
      ((200, ⟨true, "Product removed from wishlist"⟩),
       updateFirstUser users email (wishPull pid))

/- ------------------------------------------------------------------
   POST /signup and POST /login (server.js:186-235).
   ------------------------------------------------------------------ -/

/-- The bcrypt hash, abstracted as an injective tagging of the plaintext;
`bcrypt.compare p h` then holds iff `h = bhash p`. -/
def bhash (s : String) : String := "bcrypt$" ++ s

/-- Response of `POST /login`: HTTP status, success flag, `role` and
`isNewUser` as sent (absent values are dropped from the JSON object,
hence `Option`), and the error message if any. -/
structure LoginResponse where
  status : Nat
  success : Bool
  role : Option String
  isNewUser : Option Bool
  message : Option String
deriving DecidableEq, Repr

/-- server.js:224 reads `user.isFirstLogin`.  `UserSchema`
(server.js:66-78) declares no `isFirstLogin` path and `POST /signup`
never sets one, so on every user document this access yields
`undefined` (`none`); the write `user.isFirstLogin = false` touches no
schema path and `save()` persists nothing of it. -/
def readIsFirstLogin (_ : User) : Option Bool := none

/-- The `POST /signup` success path for a fresh email (server.js:195-203):
the stored document holds name, bcrypt-hashed password, email and role;
wishlist and cart default to empty arrays; no other path is set. -/
def signupUser (uid : ObjId) (name email password role : String) : User :=
  ⟨uid, name, email, bhash password, role, [], []⟩

/-- The `POST /login` handler (server.js:213-235): 404 when the email is
unknown, 401 when the bcrypt comparison fails, 403 when the supplied role
differs from the stored role; on success, `isNewUser` is the (undefined)
`isFirstLogin` read, the conditional save is skipped since `undefined` is
falsy, and the response carries `{success:true, role, isNewUser}`. -/
def loginHandler (users : Users) (email password role : String) :
    LoginResponse × Users :=
  match findUser users email with
  | none => (⟨404, false, none, none, some "User not found"⟩, users)
  | some u =>
      if bhash password != u.password then
        (⟨401, false, none, none, some "Invalid password"⟩, users)
      else if u.role != role then
        (⟨403, false, none, none,
          some ("Incorrect role. Registered as " ++ u.role)⟩, users)
      else
        match readIsFirstLogin u with
        | some true =>
            (⟨200, true, some u.role, some true, none⟩,
             updateFirstUser users email (fun v => v))
        | other => (⟨200, true, some u.role, other, none⟩, users)

/- ------------------------------------------------------------------
   Profile routes (server.js:126-184).
   ------------------------------------------------------------------ -/

/-- A Profile document as declared by `profileSchema`
(server.js:112-117). -/
structure ProfileDoc where
  name : String
  email : String
  phone : String
  address : String
deriving DecidableEq, Repr

/-- The Profile Store: the collection of Profile documents. -/
abbrev Profiles := List ProfileDoc

/-- The profile mutation of `PUT /api/profile/:email` (server.js:166-174):
find the first profile with the email; if none, a new document with the
given fields is created and saved (appended); otherwise that document's
name, phone and address are overwritten and saved. -/
def upsertProfile : Profiles → String → String → String → String → Profiles
  | [], email, name, phone, address => [⟨name, email, phone, address⟩]
  | p :: rest, email, name, phone, address =>
      if p.email == email then ⟨name, email, phone, address⟩ :: rest
      else p :: upsertProfile rest email name phone address

/-- Response of `PUT /api/profile/:email`: either the success object
carrying the saved profile (200, server.js:179) or the catch block's
`{success:false, message:"Server error"}` (500, server.js:182). -/
inductive ProfilePutBody where
  | okObj (profile : ProfileDoc)
  | errObj
deriving DecidableEq, Repr

/-- The `PUT /api/profile/:email` handler (server.js:160-184).
`userWriteFails` is whether the awaited secondary write
`User.updateOne({email}, {$set:{name}})` (server.js:177) rejects: the
profile save has already completed by then, so the profile store keeps
the new document either way, but a rejection jumps to the catch block
and the caller gets `(500, {success:false})` instead of the success
object.  When the secondary write succeeds it sets the name on the first
matching user (a no-op when no user matches). -/
def profilePutHandler (profiles : Profiles) (users : Users)
    (userWriteFails : Bool) (email name phone address : String) :
    (Nat × ProfilePutBody) × Profiles × Users :=
  let profiles2 := upsertProfile profiles email name phone address
  if userWriteFails then
    ((500, .errObj), profiles2, users)
  else
    ((200, .okObj ⟨name, email, phone, address⟩), profiles2,
     updateFirstUser users email (fun u => { u with name := name }))

/- ------------------------------------------------------------------
   Order routes (server.js:483-527).
   ------------------------------------------------------------------ -/

/-- One line of `OrderSchema.products` (server.js:99-106): the product
reference plus the snapshotted name and price and the quantity. -/
structure OrderLine where
  productId : ObjId
  productName : String
  productPrice : Int
  quantity : Int
deriving DecidableEq, Repr

/-- An Order document as declared by `OrderSchema` (server.js:97-110). -/
structure Order where
  oid : ObjId
  userId : ObjId
  products : List OrderLine
  totalAmount : Int
  status : String
  createdAt : Nat
deriving DecidableEq, Repr

/-- The Order Store: the collection of Order documents. -/
abbrev Orders := List Order

/-- One requested line item of `POST /orders` (`req.body.products`). -/
structure ReqItem where
  productId : ObjId
  quantity : Int
deriving DecidableEq, Repr

/-- server.js:489-498: resolve every requested line item against the
catalog, snapshotting the found product's name and price; the first
unresolvable reference rejects the whole `Promise.all` with the
`Product not found` error. -/
def resolveItems (catalog : Catalog) : List ReqItem → Except String (List OrderLine)
  | [] => .ok []
  | p :: rest =>
      match resolve catalog p.productId with
      | none => .error ("Product not found: " ++ toString p.productId)
      | some prod =>
          match resolveItems catalog rest with
          | .error e => .error e
          | .ok ls => .ok (⟨prod.pid, prod.name, prod.price, p.quantity⟩ :: ls)

/-- Response of `POST /orders`: the created order (200), the
user-not-found object (404, server.js:487), or the catch block's
`{success:false, message:"Failed to create order"}` (500,
server.js:503-506) which is where the `Product not found` rejection
lands. -/
inductive OrderPostBody where
  | okObj (order : Order)
  | userNotFoundObj
  | failObj (message : String)
deriving DecidableEq, Repr

/-- The `POST /orders` handler (server.js:483-507).  `oid`/`now` stand
for the fresh `_id` and `Date.now` default of the saved document.  No
order is written unless every line item resolves. -/
def postOrdersHandler (users : Users) (catalog : Catalog) (orders : Orders)
    (email : String) (items : List ReqItem) (totalAmount : Int)
    (oid : ObjId) (now : Nat) : (Nat × OrderPostBody) × Orders :=
  match findUser users email with
  | none => ((404, .userNotFoundObj), orders)
  | some u =>
      match resolveItems catalog items with
      | .error _ => ((500, .failObj "Failed to create order"), orders)
      | .ok lines =>
          let order : Order := ⟨oid, u.uid, lines, totalAmount, "Pending", now⟩
          ((200, .okObj order), orders ++ [order])

/-- The store mutation of `PUT /orders/:id`
(`Order.findByIdAndUpdate(id, {status}, {new:true})`, server.js:521):
overwrite the status field of the document with the given `_id`, leaving
every other field and every other document unchanged. -/
def updateStatusStore : Orders → ObjId → String → Orders
  | [], _, _ => []
  | o :: rest, oid, st =>
      if o.oid == oid then { o with status := st } :: rest
      else o :: updateStatusStore rest oid st

/-- `Order.findById` on the order store. -/
def findOrder (orders : Orders) (oid : ObjId) : Option Order :=
  orders.find? (fun o => o.oid == oid)

/-- The `PUT /orders/:id` handler: unconditionally overwrite the status
and answer `{success:true, order}` where `order` is the updated document
(null when the id is unknown — the handler does not check). -/
def putOrderHandler (orders : Orders) (oid : ObjId) (st : String) :
    (Nat × Bool × Option Order) × Orders :=
  let orders2 := updateStatusStore orders oid st
  ((200, true, findOrder orders2 oid), orders2)

/- ==================================================================
   Helper lemmas.
   ================================================================== -/

lemma strEqFilter_iff (o : Option String) (x : String) :
    strEqFilter o x = true ↔ ∀ c, o = some c → x = c := by
  cases o <;> simp [strEqFilter]

lemma colorEqFilter_iff (o : Option String) (x : String) :
    colorEqFilter o x = true ↔ ∀ c, o = some c → x.toLower = c.toLower := by
  cases o <;> simp [colorEqFilter]

lemma ratingGeFilter_iff (o : Option Int) (pr : Option Int) :
    ratingGeFilter o pr = true ↔ ∀ r, o = some r → ∃ v, pr = some v ∧ r ≤ v := by
  cases o <;> cases pr <;> simp [ratingGeFilter]

lemma priceMinFilter_iff (o : Option Int) (x : Int) :
    priceMinFilter o x = true ↔ ∀ m, o = some m → m ≤ x := by
  cases o <;> simp [priceMinFilter]

lemma priceMaxFilter_iff (o : Option Int) (x : Int) :
    priceMaxFilter o x = true ↔ ∀ m, o = some m → x ≤ m := by
  cases o <;> simp [priceMaxFilter]

lemma cleanedCart_eq_filterMap (catalog : Catalog) (cart : List CartEntry) :
    cleanedCart catalog cart =
      cart.filterMap (fun e => (resolve catalog e.productId).map
        (fun p => CartItemView.mk p.pid p.name p.price e.quantity)) := by
  induction cart with
  | nil => rfl
  | cons e rest ih =>
      cases h : resolve catalog e.productId <;>
        simp [cleanedCart, populateCart, h, List.filter_cons, List.filterMap_cons] <;>
        simpa [cleanedCart, populateCart] using ih

/- ==================================================================
   Theorems for the claims.
   ================================================================== -/

/-- C3: for every catalog and every combination of provided query
filters, `GET /products` returns exactly the catalog products satisfying
the conjunction of the provided predicates — equality on
category/size/brand, case-insensitive equality on color, minimum
threshold on rating, inclusive price range — and an omitted (or, by JS
truthiness, empty-string) filter field imposes no constraint. -/
theorem getProducts_mem_iff (catalog : Catalog) (q : ProductQuery) (p : Product) :
    p ∈ getProducts catalog q ↔
      p ∈ catalog
      ∧ (∀ c, truthyStr q.category = some c → p.category = c)
      ∧ (∀ s, truthyStr q.size = some s → p.size = s)
      ∧ (∀ b, truthyStr q.brand = some b → p.brand = b)
      ∧ (∀ c, truthyStr q.color = some c → p.color.toLower = c.toLower)
      ∧ (∀ r, q.rating = some r → ∃ v, p.rating = some v ∧ r ≤ v)
      ∧ (∀ m, q.priceMin = some m → m ≤ p.price)
      ∧ (∀ m, q.priceMax = some m → p.price ≤ m) := by
  have hmatch : matchesFilter (buildFilter q) p = true ↔
      (∀ c, truthyStr q.category = some c → p.category = c)
      ∧ (∀ s, truthyStr q.size = some s → p.size = s)
      ∧ (∀ b, truthyStr q.brand = some b → p.brand = b)
      ∧ (∀ c, truthyStr q.color = some c → p.color.toLower = c.toLower)
      ∧ (∀ r, q.rating = some r → ∃ v, p.rating = some v ∧ r ≤ v)
      ∧ (∀ m, q.priceMin = some m → m ≤ p.price)
      ∧ (∀ m, q.priceMax = some m → p.price ≤ m) := by
    simp only [matchesFilter, buildFilter, Bool.and_eq_true, strEqFilter_iff,
      colorEqFilter_iff, ratingGeFilter_iff, priceMinFilter_iff, priceMaxFilter_iff]
    tauto
  unfold getProducts findProducts
  rw [List.mem_filter, hmatch]

/-- C1: every cart read answers HTTP 200 with a JSON array; an unknown
user, a user without a cart array, or a store failure degrades to the
empty array; and for a found user the array holds exactly the entries
whose product reference still resolves, denormalized to
name/price/quantity — dangling references are silently dropped. -/
theorem getCart_total_and_filtered (catalog : Catalog)
    (lookup : Except Unit (Option User)) :
    (getCartHandler catalog lookup).1 = 200
    ∧ ((lookup = Except.error () ∨ lookup = Except.ok none) →
        (getCartHandler catalog lookup).2 = [])
    ∧ (∀ u, lookup = Except.ok (some u) →
        (getCartHandler catalog lookup).2 =
          u.cart.filterMap (fun e => (resolve catalog e.productId).map
            (fun p => CartItemView.mk p.pid p.name p.price e.quantity))) := by
  match lookup with
  | .error e => cases e; simp [getCartHandler]
  | .ok none => simp [getCartHandler]
  | .ok (some u) =>
      refine ⟨rfl, by simp, ?_⟩
      intro v hv
      rw [Except.ok.injEq, Option.some.injEq] at hv
      subst hv
      simpa [getCartHandler] using cleanedCart_eq_filterMap catalog u.cart

/-- Witness for C1 at a concrete store: the cart holds one entry that
resolves (product 7) and one dangling entry (product 9, absent from the
catalog); the read returns 200 with only the resolved entry. -/
theorem getCart_total_and_filtered_witness :
    (getCartHandler [⟨7, "Shoe", 100, "men", "", "img", "", "", none, "", 0⟩]
      (Except.ok (some ⟨1, "A", "a@x", "h", "user", [], [⟨7, 2⟩, ⟨9, 1⟩]⟩))).2
    = [⟨7, "Shoe", 100, 2⟩] :=
  ((getCart_total_and_filtered
      [⟨7, "Shoe", 100, "men", "", "img", "", "", none, "", 0⟩]
      (Except.ok (some ⟨1, "A", "a@x", "h", "user", [], [⟨7, 2⟩, ⟨9, 1⟩]⟩))).2.2
    ⟨1, "A", "a@x", "h", "user", [], [⟨7, 2⟩, ⟨9, 1⟩]⟩ rfl).trans (by decide)

/-- C5 counterexample: on a total store failure the wishlist read does
NOT degrade to an empty collection — the catch block answers HTTP 500
with the `{success:false}` error object, which differs from a 200
empty-array response. -/
theorem getWishlist_fault_not_empty :
    getWishlistHandler [] (Except.error ()) = (500, WishGetBody.faultObj)
    ∧ ((500, WishGetBody.faultObj) : Nat × WishGetBody)
        ≠ (200, WishGetBody.arr []) := by
  exact ⟨rfl, by decide⟩

/-- C5 amended: on a total store failure (`User.findOne` rejecting) the
wishlist read propagates a ServerFault to the caller as HTTP 500 with an
error object; it is the cart read path, not the wishlist one, that
degrades to an empty array on failure. -/
theorem getWishlist_fault_propagates (catalog : Catalog) (e : Unit) :
    getWishlistHandler catalog (Except.error e) = (500, WishGetBody.faultObj)
    ∧ getCartHandler catalog (Except.error e) = (200, []) := by
  cases e; exact ⟨rfl, rfl⟩

lemma addToCart_not_mem (cart : List CartEntry) (pid : ObjId) (q : Option Int)
    (h : pid ∉ cart.map CartEntry.productId) :
    addToCart cart pid q = cart ++ [⟨pid, jsQtyOrOne q⟩] := by
  induction cart with
  | nil => rfl
  | cons e rest ih =>
      simp only [List.map_cons, List.mem_cons, not_or] at h
      have h1 : e.productId ≠ pid := fun hh => h.1 hh.symm
      simp [addToCart, h1, ih h.2]

lemma addToCart_found (l1 : List CartEntry) (e : CartEntry) (l2 : List CartEntry)
    (pid : ObjId) (q : Option Int)
    (h1 : pid ∉ l1.map CartEntry.productId) (he : e.productId = pid) :
    addToCart (l1 ++ e :: l2) pid q = l1 ++ ⟨pid, e.quantity + jsQtyOrOne q⟩ :: l2 := by
  induction l1 with
  | nil => simp [addToCart, he]
  | cons a rest ih =>
      simp only [List.map_cons, List.mem_cons, not_or] at h1
      have ha : a.productId ≠ pid := fun hh => h1.1 hh.symm
      simp [addToCart, ha, ih h1.2]

lemma addToCart_map (cart : List CartEntry) (pid : ObjId) (q : Option Int) :
    (addToCart cart pid q).map CartEntry.productId =
      if pid ∈ cart.map CartEntry.productId then cart.map CartEntry.productId
      else cart.map CartEntry.productId ++ [pid] := by
  induction cart with
  | nil => simp [addToCart]
  | cons e rest ih =>
      by_cases hh : e.productId = pid
      · simp [addToCart, hh]
      · have hne : pid ≠ e.productId := fun x => hh x.symm
        by_cases hm : pid ∈ rest.map CartEntry.productId <;>
          simp [addToCart, hh, ih, hm, hne]

/-- C4 counterexample: with an existing entry of quantity 2 for
product 1, a request with the explicit quantity 0 increments by 1 (JS
`quantity || 1` treats 0 as falsy, not as absent), yielding quantity 3 —
not by the requested amount 0, which per the claim would leave the entry
at quantity 2. -/
theorem addToCart_zero_quantity_cex :
    addToCart [⟨1, 2⟩] 1 (some 0) = [⟨1, 3⟩]
    ∧ ([⟨1, 3⟩] : List CartEntry) ≠ [⟨1, 2⟩] := by
  exact ⟨rfl, by decide⟩

/-- C4 amended: `addToCart` increments the quantity of the first
existing entry for the product by the requested amount, except that an
absent OR zero requested amount counts as 1 (JS falsiness of
`quantity || 1`); otherwise it appends one new entry; it preserves the
at-most-one-entry-per-product invariant; and adding the same product
twice to a cart not containing it yields one entry with the summed
effective quantities, never two entries. -/
theorem addToCart_behavior (cart : List CartEntry) (pid : ObjId) (q : Option Int) :
    (pid ∉ cart.map CartEntry.productId →
      addToCart cart pid q = cart ++ [⟨pid, jsQtyOrOne q⟩])
    ∧ (∀ l1 e l2, cart = l1 ++ e :: l2 → e.productId = pid →
        pid ∉ l1.map CartEntry.productId →
        addToCart cart pid q = l1 ++ ⟨pid, e.quantity + jsQtyOrOne q⟩ :: l2)
    ∧ ((cart.map CartEntry.productId).Nodup →
        ((addToCart cart pid q).map CartEntry.productId).Nodup)
    ∧ (∀ q2, pid ∉ cart.map CartEntry.productId →
        addToCart (addToCart cart pid q) pid q2 =
          cart ++ [⟨pid, jsQtyOrOne q + jsQtyOrOne q2⟩]) := by
  refine ⟨addToCart_not_mem cart pid q, ?_, ?_, ?_⟩
  · intro l1 e l2 hc he hm
    subst hc
    exact addToCart_found l1 e l2 pid q hm he
  · intro hd
    rw [addToCart_map]
    by_cases hm : pid ∈ cart.map CartEntry.productId
    · simpa [hm] using hd
    · simp [hm, List.nodup_append, hd]
  · intro q2 hm
    rw [addToCart_not_mem cart pid q hm,
      addToCart_found cart ⟨pid, jsQtyOrOne q⟩ [] pid q2 hm rfl]

/-- Witness for C4 amended: appending a fresh entry at the end, and two
successive adds of the same product to an empty cart yielding a single
entry with the summed quantity 2 + 3 = 5. -/
theorem addToCart_behavior_witness :
    addToCart [⟨2, 5⟩] 1 (some 3) = [⟨2, 5⟩, ⟨1, 3⟩]
    ∧ addToCart (addToCart [] 1 (some 2)) 1 (some 3) = [⟨1, 5⟩] := by
  constructor
  · exact ((addToCart_behavior [⟨2, 5⟩] 1 (some 3)).1 (by decide)).trans (by decide)
  · exact (((addToCart_behavior [] 1 (some 2)).2.2.2 (some 3)) (by decide)).trans
      (by decide)

/-- C6 (code bug evidence): `UserSchema` declares no `isFirstLogin` path
and `POST /signup` never sets one, so on every login the `isFirstLogin`
read yields `undefined`: the response never reports a first login
(`isNewUser` is never `true`) and the conditional clearing save never
runs (the user store is unchanged).  In particular the very first
successful login of a freshly signed-up user answers
`{success:true, role}` with no first-login indication, contradicting the
specified behavior. -/
theorem login_never_reports_first_login :
    (∀ (users : Users) (email password role : String),
        (loginHandler users email password role).1.isNewUser ≠ some true
        ∧ (loginHandler users email password role).2 = users)
    ∧ (loginHandler [signupUser 1 "Alice" "alice@x" "pw" "user"]
          "alice@x" "pw" "user")
        = (⟨200, true, some "user", none, none⟩,
           [signupUser 1 "Alice" "alice@x" "pw" "user"]) := by
  constructor
  · intro users email password role
    cases h : findUser users email with
    | none => simp [loginHandler, h]
    | some u =>
        simp only [loginHandler, h, readIsFirstLogin]
        split_ifs <;> simp
  · decide

lemma upsertProfile_find (profiles : Profiles) (email name phone address : String) :
    (upsertProfile profiles email name phone address).find?
        (fun p => p.email == email) = some ⟨name, email, phone, address⟩ := by
  induction profiles with
  | nil => simp [upsertProfile, List.find?]
  | cons p rest ih =>
      by_cases h : p.email = email
      · simp [upsertProfile, h, List.find?]
      · simp [upsertProfile, h, List.find?, ih]

/-- C7 counterexample: when the secondary `User.updateOne` name push
rejects, the profile document has already been saved (it is in the
resulting profile store), yet the caller is answered with the HTTP 500
`{success:false, message:"Server error"}` object instead of the success
object — the secondary write's failure DOES fail the profile write as
reported to the caller. -/
theorem profilePut_secondary_failure_cex :
    profilePutHandler [] [] true "e@x" "N" "P" "A"
      = ((500, ProfilePutBody.errObj), [⟨"N", "e@x", "P", "A"⟩], [])
    ∧ ProfilePutBody.errObj ≠ ProfilePutBody.okObj ⟨"N", "e@x", "P", "A"⟩ := by
  exact ⟨rfl, by decide⟩

/-- C7 amended: the profile upsert creates or overwrites the profile
fields and that write persists regardless of the secondary name push;
the push's failure does not roll the profile back, but it is reported to
the caller as a ServerFault (500) instead of success; when the push
succeeds, the caller gets the success object and the first matching
user's name is updated. -/
theorem profilePut_behavior (profiles : Profiles) (users : Users) (wf : Bool)
    (email name phone address : String) :
    (profilePutHandler profiles users wf email name phone address).2.1
        = upsertProfile profiles email name phone address
    ∧ (profilePutHandler profiles users wf email name phone address).2.1.find?
        (fun p => p.email == email) = some ⟨name, email, phone, address⟩
    ∧ (wf = true →
        (profilePutHandler profiles users wf email name phone address).1
            = (500, ProfilePutBody.errObj)
        ∧ (profilePutHandler profiles users wf email name phone address).2.2 = users)
    ∧ (wf = false →
        (profilePutHandler profiles users wf email name phone address).1
            = (200, ProfilePutBody.okObj ⟨name, email, phone, address⟩)
        ∧ (profilePutHandler profiles users wf email name phone address).2.2
            = updateFirstUser users email (fun u => { u with name := name })) := by
  cases wf <;> simp [profilePutHandler, upsertProfile_find]

/-- Witness for C7 amended: a failing push answers 500 while the profile
store holds the new document; a succeeding push answers the success
object. -/
theorem profilePut_behavior_witness :
    (profilePutHandler [] [] true "e@x" "N" "P" "A").2.1 = [⟨"N", "e@x", "P", "A"⟩]
    ∧ (profilePutHandler [] [] true "e@x" "N" "P" "A").1 = (500, ProfilePutBody.errObj)
    ∧ (profilePutHandler [⟨"O", "e@x", "1", "B"⟩] [] false "e@x" "N" "P" "A").1
        = (200, ProfilePutBody.okObj ⟨"N", "e@x", "P", "A"⟩) := by
  refine ⟨?_, ?_, ?_⟩
  · exact ((profilePut_behavior [] [] true "e@x" "N" "P" "A").1).trans (by decide)
  · exact ((profilePut_behavior [] [] true "e@x" "N" "P" "A").2.2.1 rfl).1
  · exact ((profilePut_behavior [⟨"O", "e@x", "1", "B"⟩] [] false
      "e@x" "N" "P" "A").2.2.2 rfl).1

lemma resolveItems_error_of_unresolved (catalog : Catalog) (items : List ReqItem)
    (h : ∃ i ∈ items, resolve catalog i.productId = none) :
    ∃ e, resolveItems catalog items = Except.error e := by
  induction items with
  | nil => obtain ⟨i, hi, _⟩ := h; cases hi
  | cons a rest ih =>
      obtain ⟨i, hi, hr⟩ := h
      rcases List.mem_cons.mp hi with hh | hh
      · subst hh
        exact ⟨"Product not found: " ++ toString i.productId,
          by simp [resolveItems, hr]⟩
      · cases ha : resolve catalog a.productId with
        | none =>
            exact ⟨"Product not found: " ++ toString a.productId,
              by simp [resolveItems, ha]⟩
        | some p =>
            obtain ⟨e, he⟩ := ih ⟨i, hh, hr⟩
            exact ⟨e, by simp [resolveItems, ha, he]⟩

lemma resolveItems_ok_snapshot (catalog : Catalog) (items : List ReqItem)
    (lines : List OrderLine) (h : resolveItems catalog items = Except.ok lines) :
    ∀ l ∈ lines, ∃ i ∈ items, ∃ p, resolve catalog i.productId = some p
      ∧ l = ⟨p.pid, p.name, p.price, i.quantity⟩ := by
  induction items generalizing lines with
  | nil =>
      simp [resolveItems] at h
      subst h
      intro l hl
      cases hl
  | cons a rest ih =>
      cases ha : resolve catalog a.productId with
      | none => simp [resolveItems, ha] at h
      | some p =>
          cases hr : resolveItems catalog rest with
          | error e => simp [resolveItems, ha, hr] at h
          | ok ls =>
              simp only [resolveItems, ha, hr] at h
              rw [Except.ok.injEq] at h
              subst h
              intro l hl
              rcases List.mem_cons.mp hl with hh | hh
              · exact ⟨a, List.mem_cons_self a rest, p, ha, hh⟩
              · obtain ⟨i, hi, pp, hpp, hline⟩ := ih ls hr l hh
                exact ⟨i, List.mem_cons_of_mem a hi, pp, hpp, hline⟩

/-- C2 counterexample: with the user present and a line item referencing
the nonexistent product 2, order creation aborts, but the caller sees
the opaque ServerFault object — HTTP 500 with
`{success:false, message:"Failed to create order"}` — not a
NotFound-class response (this API reports NotFound as 404 with a
descriptive message, as the same route's user check does).  The order
store is left unchanged (all-or-nothing does hold). -/
theorem postOrders_unresolved_is_500 :
    postOrdersHandler [⟨1, "A", "a@x", "h", "user", [], []⟩]
        [⟨1, "Shoe", 100, "men", "", "img", "", "", none, "", 0⟩] []
        "a@x" [⟨1, 1⟩, ⟨2, 1⟩] 100 10 0
      = ((500, OrderPostBody.failObj "Failed to create order"), [])
    ∧ (500 : Nat) ≠ 404 := by
  exact ⟨by decide, by decide⟩

/-- C2 amended: if any line item's product reference cannot be resolved
at creation time, the whole operation aborts with no order persisted
(all-or-nothing), but the failure reaches the caller as an opaque
ServerFault (HTTP 500, generic message) rather than a NotFound-class
response; when every reference resolves, exactly one order is appended
whose line items snapshot each product's current name and price. -/
theorem postOrders_all_or_nothing (users : Users) (catalog : Catalog)
    (orders : Orders) (email : String) (items : List ReqItem) (total : Int)
    (oid : ObjId) (now : Nat) (u : User) (hu : findUser users email = some u) :
    ((∃ i ∈ items, resolve catalog i.productId = none) →
        postOrdersHandler users catalog orders email items total oid now
          = ((500, OrderPostBody.failObj "Failed to create order"), orders))
    ∧ (∀ lines, resolveItems catalog items = Except.ok lines →
        postOrdersHandler users catalog orders email items total oid now
          = ((200, OrderPostBody.okObj ⟨oid, u.uid, lines, total, "Pending", now⟩),
             orders ++ [⟨oid, u.uid, lines, total, "Pending", now⟩])
        ∧ ∀ l ∈ lines, ∃ i ∈ items, ∃ p, resolve catalog i.productId = some p
            ∧ l = ⟨p.pid, p.name, p.price, i.quantity⟩) := by
  constructor
  · intro hex
    obtain ⟨e, he⟩ := resolveItems_error_of_unresolved catalog items hex
    simp [postOrdersHandler, hu, he]
  · intro lines hl
    exact ⟨by simp [postOrdersHandler, hu, hl],
           resolveItems_ok_snapshot catalog items lines hl⟩

/-- Witness for C2 amended: with product 1 in the catalog, an order for
two units is created and appended with the snapshotted name "Shoe" and
price 100. -/
theorem postOrders_all_or_nothing_witness :
    postOrdersHandler [⟨1, "A", "a@x", "h", "user", [], []⟩]
        [⟨1, "Shoe", 100, "men", "", "img", "", "", none, "", 0⟩] []
        "a@x" [⟨1, 2⟩] 200 10 0
      = ((200, OrderPostBody.okObj ⟨10, 1, [⟨1, "Shoe", 100, 2⟩], 200, "Pending", 0⟩),
         [⟨10, 1, [⟨1, "Shoe", 100, 2⟩], 200, "Pending", 0⟩]) :=
  ((postOrders_all_or_nothing [⟨1, "A", "a@x", "h", "user", [], []⟩]
      [⟨1, "Shoe", 100, "men", "", "img", "", "", none, "", 0⟩] []
      "a@x" [⟨1, 2⟩] 200 10 0 ⟨1, "A", "a@x", "h", "user", [], []⟩ (by decide)).2
    [⟨1, "Shoe", 100, 2⟩] rfl).1

lemma updateStatusStore_frame (orders : Orders) (oid : ObjId) (st : String) :
    (updateStatusStore orders oid st).map
        (fun o => (o.oid, o.userId, o.products, o.totalAmount, o.createdAt))
      = orders.map (fun o => (o.oid, o.userId, o.products, o.totalAmount, o.createdAt)) := by
  induction orders with
  | nil => rfl
  | cons o rest ih =>
      by_cases h : o.oid = oid <;> simp [updateStatusStore, h, ih]

lemma findOrder_updateStatusStore (orders : Orders) (oid : ObjId) (st : String)
    (o : Order) (h : findOrder orders oid = some o) :
    findOrder (updateStatusStore orders oid st) oid = some { o with status := st } := by
  induction orders with
  | nil => simp [findOrder] at h
  | cons a rest ih =>
      by_cases ha : a.oid = oid
      · have haeq : a = o := by simpa [findOrder, List.find?_cons, ha] using h
        subst haeq
        simp [updateStatusStore, findOrder, List.find?_cons, ha]
      · have h2 : findOrder rest oid = some o := by
          simpa [findOrder, List.find?_cons, ha] using h
        simpa [updateStatusStore, findOrder, List.find?_cons, ha] using ih h2

/-- C9: for every order store and every status among Pending, Shipped,
Delivered, `PUT /orders/:id` unconditionally overwrites the status field
of the addressed order — from any prior status — and changes nothing
else: every order's products sequence, owner reference, totalAmount and
createdAt are untouched; moreover order creation only ever appends, so
no operation mutates an existing order's products after creation. -/
theorem updateStatus_overwrites_only_status (orders : Orders) (oid : ObjId)
    (st : String) (_hst : st = "Pending" ∨ st = "Shipped" ∨ st = "Delivered") :
    ((putOrderHandler orders oid st).2.map
        (fun o => (o.oid, o.userId, o.products, o.totalAmount, o.createdAt))
      = orders.map (fun o => (o.oid, o.userId, o.products, o.totalAmount, o.createdAt)))
    ∧ (∀ o, findOrder orders oid = some o →
        findOrder (putOrderHandler orders oid st).2 oid = some { o with status := st }
        ∧ (putOrderHandler orders oid st).1 = (200, true, some { o with status := st }))
    ∧ (∀ (users : Users) (catalog : Catalog) (email : String)
        (items : List ReqItem) (total : Int) (noid : ObjId) (now : Nat), ∃ tail,
        (postOrdersHandler users catalog orders email items total noid now).2
          = orders ++ tail) := by
  refine ⟨updateStatusStore_frame orders oid st, ?_, ?_⟩
  · intro o ho
    have hf := findOrder_updateStatusStore orders oid st o ho
    exact ⟨hf, by simp [putOrderHandler, hf]⟩
  · intro users catalog email items total noid now
    cases h1 : findUser users email with
    | none => exact ⟨[], by simp [postOrdersHandler, h1]⟩
    | some u =>
        cases h2 : resolveItems catalog items with
        | error e => exact ⟨[], by simp [postOrdersHandler, h1, h2]⟩
        | ok lines =>
            exact ⟨[⟨noid, u.uid, lines, total, "Pending", now⟩],
              by simp [postOrdersHandler, h1, h2]⟩

/-- Witness for C9: a Delivered order is moved back to Pending (a
backwards transition), keeping its products, owner, total and creation
time. -/
theorem updateStatus_overwrites_only_status_witness :
    findOrder (putOrderHandler [⟨5, 1, [⟨1, "Shoe", 100, 2⟩], 200, "Delivered", 3⟩]
        5 "Pending").2 5
      = some ⟨5, 1, [⟨1, "Shoe", 100, 2⟩], 200, "Pending", 3⟩ :=
  ((updateStatus_overwrites_only_status
      [⟨5, 1, [⟨1, "Shoe", 100, 2⟩], 200, "Delivered", 3⟩] 5 "Pending"
      (Or.inl rfl)).2.1
    ⟨5, 1, [⟨1, "Shoe", 100, 2⟩], 200, "Delivered", 3⟩ (by decide)).1

lemma findUser_updateFirstUser (users : Users) (email : String) (f : User → User)
    (u : User) (hu : findUser users email = some u) (hf : (f u).email = u.email) :
    findUser (updateFirstUser users email f) email = some (f u) := by
  induction users with
  | nil => simp [findUser] at hu
  | cons a rest ih =>
      by_cases ha : a.email = email
      · have haeq : a = u := by simpa [findUser, List.find?_cons, ha] using hu
        subst haeq
        simp [updateFirstUser, findUser, List.find?_cons, ha, hf.trans ha]
      · have h2 : findUser rest email = some u := by
          simpa [findUser, List.find?_cons, ha] using hu
        simpa [updateFirstUser, findUser, List.find?_cons, ha] using ih h2

lemma updateFirstUser_eq_self (users : Users) (email : String) (f : User → User)
    (u : User) (hu : findUser users email = some u) (hid : f u = u) :
    updateFirstUser users email f = users := by
  induction users with
  | nil => rfl
  | cons a rest ih =>
      by_cases ha : a.email = email
      · have haeq : a = u := by simpa [findUser, List.find?_cons, ha] using hu
        subst haeq
        simp [updateFirstUser, ha, hid]
      · have h2 : findUser rest email = some u := by
          simpa [findUser, List.find?_cons, ha] using hu
        simp [updateFirstUser, ha, ih h2]

lemma updateFirstUser_idem (users : Users) (email : String) (f : User → User)
    (hf : ∀ v, (f v).email = v.email) (hff : ∀ v, f (f v) = f v) :
    updateFirstUser (updateFirstUser users email f) email f
      = updateFirstUser users email f := by
  induction users with
  | nil => rfl
  | cons a rest ih =>
      by_cases ha : a.email = email
      · simp [updateFirstUser, ha, (hf a).trans ha, hff a]
      · simp [updateFirstUser, ha, ih]

lemma filter_idem {α : Type} (p : α → Bool) (l : List α) :
    (l.filter p).filter p = l.filter p := by
  induction l with
  | nil => rfl
  | cons a t ih =>
      by_cases h : p a <;> simp [List.filter_cons, h, ih]

lemma cleanedCart_cartRemoveFilter (catalog : Catalog) (pid : ObjId)
    (cart : List CartEntry) :
    pid ∉ cart.map CartEntry.productId →
    cleanedCart catalog (cartRemoveFilter catalog pid cart)
      = cleanedCart catalog cart := by
  rw [cleanedCart_eq_filterMap, cleanedCart_eq_filterMap]
  induction cart with
  | nil => intro _; rfl
  | cons e rest ih =>
      intro h
      simp only [List.map_cons, List.mem_cons, not_or] at h
      have hne : e.productId ≠ pid := fun x => h.1 x.symm
      cases hr : resolve catalog e.productId with
      | none =>
          simpa [cartRemoveFilter, List.filter_cons, List.filterMap_cons, hr, hne]
            using ih h.2
      | some p =>
          simpa [cartRemoveFilter, List.filter_cons, List.filterMap_cons, hr, hne]
            using ih h.2

/-- C8 counterexample: `DELETE /wishlist/remove` answers with the very
same body for two users whose resulting wishlists differ (it sends only
`{success, message}`), so it does not return the resulting collection as
the claim states. -/
theorem wishlistRemove_no_collection_cex :
    (wishlistRemoveHandler [⟨1, "A", "a@x", "h", "user", [5], []⟩] "a@x" 9).1
      = (wishlistRemoveHandler [⟨1, "A", "a@x", "h", "user", [7, 8], []⟩] "a@x" 9).1
    ∧ (wishlistRemoveHandler [⟨1, "A", "a@x", "h", "user", [5], []⟩] "a@x" 9).2
      ≠ (wishlistRemoveHandler [⟨1, "A", "a@x", "h", "user", [7, 8], []⟩] "a@x" 9).2 := by
  exact ⟨rfl, by decide⟩

/-- C8 amended: removing a non-member product succeeds silently:
`removeFromWishlist` leaves the store unchanged and answers the success
message (without the collection — its response never carries one);
`removeFromCart` answers 200 with the resulting collection, whose
membership equals the cleaned view of the original cart; and for both,
removing twice equals removing once. -/
theorem removeNonMember_noop (catalog : Catalog) (users : Users) (email : String)
    (pid : ObjId) (u : User) (hu : findUser users email = some u) :
    (pid ∉ u.wishlist →
        wishlistRemoveHandler users email pid
          = ((200, ⟨true, "Product removed from wishlist"⟩), users))
    ∧ (pid ∉ u.cart.map CartEntry.productId →
        (cartRemoveHandler catalog users email pid).1
          = (200, cleanedCart catalog u.cart))
    ∧ (wishlistRemoveHandler (wishlistRemoveHandler users email pid).2 email pid
        = wishlistRemoveHandler users email pid)
    ∧ (cartRemoveHandler catalog (cartRemoveHandler catalog users email pid).2 email pid
        = cartRemoveHandler catalog users email pid) := by
  refine ⟨?_, ?_, ?_, ?_⟩
  · intro hnm
    have hfil : u.wishlist.filter (fun x => x != pid) = u.wishlist := by
      apply List.filter_eq_self.mpr
      intro x hx
      simp only [bne_iff_ne, ne_eq, decide_eq_true_eq]
      exact fun heq => hnm (heq ▸ hx)
    have heq : updateFirstUser users email (wishPull pid) = users :=
      updateFirstUser_eq_self users email (wishPull pid) u hu
        (by show { u with wishlist := u.wishlist.filter (fun x => x != pid) } = u
            rw [hfil])
    simp [wishlistRemoveHandler, hu, heq]
  · intro hnm
    simp [cartRemoveHandler, hu, cleanedCart_cartRemoveFilter catalog pid u.cart hnm]
  · have h1 := findUser_updateFirstUser users email (wishPull pid) u hu rfl
    simp only [wishlistRemoveHandler, hu, h1]
    rw [updateFirstUser_idem users email (wishPull pid) (fun v => rfl)
      (fun v => by simp [wishPull, filter_idem])]
  · have h1 := findUser_updateFirstUser users email
      (cartSet (cartRemoveFilter catalog pid u.cart)) u hu rfl
    have hNC : cartRemoveFilter catalog pid (cartRemoveFilter catalog pid u.cart)
        = cartRemoveFilter catalog pid u.cart := by
      unfold cartRemoveFilter
      exact filter_idem _ _
    simp only [cartRemoveHandler, hu, h1, cartSet, hNC]
    rw [updateFirstUser_idem users email (cartSet (cartRemoveFilter catalog pid u.cart))
      (fun v => rfl) (fun v => rfl)]

/-- Witness for C8 amended: removing the absent product 9 from a
wishlist holding 7 succeeds with the stored data untouched. -/
theorem removeNonMember_noop_witness :
    wishlistRemoveHandler [⟨1, "A", "a@x", "h", "user", [7], []⟩] "a@x" 9
      = ((200, ⟨true, "Product removed from wishlist"⟩),
         [⟨1, "A", "a@x", "h", "user", [7], []⟩]) :=
  (removeNonMember_noop [] [⟨1, "A", "a@x", "h", "user", [7], []⟩] "a@x" 9
      ⟨1, "A", "a@x", "h", "user", [7], []⟩ (by decide)).1 (by decide)

/-- C10: `DELETE /cart/remove` does not only drop the named product: the
persisted cart is the old one filtered to the entries that still resolve
AND differ from the named product, so every dangling entry — whatever
product it names — is pruned from the user's stored record as a side
effect of the remove. -/
theorem cartRemove_prunes_dangling (catalog : Catalog) (users : Users)
    (email : String) (pid : ObjId) (u : User)
    (hu : findUser users email = some u) :
    findUser (cartRemoveHandler catalog users email pid).2 email
        = some { u with cart := cartRemoveFilter catalog pid u.cart }
    ∧ (∀ e ∈ u.cart, resolve catalog e.productId = none →
        e ∉ cartRemoveFilter catalog pid u.cart)
    ∧ (∀ e ∈ u.cart, e.productId = pid →
        e ∉ cartRemoveFilter catalog pid u.cart) := by
  refine ⟨?_, ?_, ?_⟩
  · have h1 := findUser_updateFirstUser users email
      (fun v => { v with cart := cartRemoveFilter catalog pid u.cart }) u hu rfl
    simpa [cartRemoveHandler, hu] using h1
  · intro e he hr
    simp [cartRemoveFilter, List.mem_filter, hr]
  · intro e he hp
    simp [cartRemoveFilter, List.mem_filter, hp]

/-- Witness for C10: removing product 5 from a cart holding a resolvable
entry (7), a dangling entry (9) and the entry 5 itself leaves only entry
7 in the persisted cart — the dangling entry 9 was removed although the
request never named it. -/
theorem cartRemove_prunes_dangling_witness :
    findUser (cartRemoveHandler
        [⟨7, "Shoe", 100, "men", "", "img", "", "", none, "", 0⟩]
        [⟨1, "A", "a@x", "h", "user", [], [⟨7, 1⟩, ⟨9, 2⟩, ⟨5, 3⟩]⟩]
        "a@x" 5).2 "a@x"
      = some ⟨1, "A", "a@x", "h", "user", [], [⟨7, 1⟩]⟩ :=
  ((cartRemove_prunes_dangling
      [⟨7, "Shoe", 100, "men", "", "img", "", "", none, "", 0⟩]
      [⟨1, "A", "a@x", "h", "user", [], [⟨7, 1⟩, ⟨9, 2⟩, ⟨5, 3⟩]⟩]
      "a@x" 5 ⟨1, "A", "a@x", "h", "user", [], [⟨7, 1⟩, ⟨9, 2⟩, ⟨5, 3⟩]⟩
      (by decide)).1).trans (by decide)

end Shoekart
